import Mathlib

/-
Verification development for the mcp-customerservice pipeline.

Shallow embedding of:
  src/agents/router_agent.py        (router_agent)
  src/agents/customer_data_agent.py (customer_data_agent)
  src/agents/support_agent.py       (support_agent)
  src/workflows/a2a_graph.py        (build_a2a_graph / run_pipeline)

Modelling conventions:
  - The Python dict state (SupportState TypedDict, total=False) is a structure
    whose optional fields are Options with the defaults used by .get calls.
  - External collaborators (mcp_server directory functions, the LLM call and
    json.loads) are an Env record of pure functions; the LLM call may fail
    (Except), matching the fact that llm.invoke sits OUTSIDE the try block
    while json parsing sits inside it.
  - Directory side effects are reported as an explicit call log (List DirCall)
    returned next to the new state.
  - Text operations model Python str operations over ASCII: str.lower is
    Char.toLower (A-Z only), substring membership is list infix, and the two
    regexes of the source are translated into deterministic matchers that
    follow Python re.search leftmost/backtracking semantics for exactly these
    patterns.
-/

-- ===== Data model (mcp_server contract, workflows/a2a_graph.py) =====

structure Customer where
  id : Int
  name : String
  email : String
  phone : String
  status : String
deriving DecidableEq

structure Ticket where
  id : Int
  status : String
  priority : String
  issue : String
deriving DecidableEq

structure History where
  customer : Option Customer
  tickets : List Ticket
deriving DecidableEq

inductive Message where
  | human (content : String)
  | ai (content : String)
deriving DecidableEq

-- SupportState from workflows/a2a_graph.py (TypedDict, total=False).
-- `input` models the state.get("input", "") fallback read in support_agent.
structure SupportState where
  messages : List Message := []
  intent : Option String := none
  urgency : Option String := none
  route : Option String := none
  customer_id : Option Int := none
  response : Option String := none
  customer_data : Option Customer := none
  tickets : Option (List Ticket) := none
  customers : Option (List Customer) := none
  input : String := ""
deriving DecidableEq

-- One directory-service call, as recorded in the call log.
inductive DirCall where
  | getHistory (id : Int)
  | createTicket (id : Int) (issue : String) (priority : String)
  | updateCustomer (id : Int) (email : String)
  | listCustomers (status : String) (limit : Nat)
deriving DecidableEq

-- External collaborators: the directory service, the LLM and json parsing.
-- llm_invoke returns the raw content string or a service error (an exception
-- raised by llm.invoke, which the source does NOT wrap in try/except).
-- json_loads returns the parsed JSON object as a string map, or none when
-- json.loads raises or the result does not support .get (caught by except).
structure Env where
  get_customer_history : Int → History
  create_ticket : Int → String → String → Ticket
  update_customer : Int → String → Customer
  list_customers : String → Nat → List Customer
  llm_invoke : String → Except Unit String
  json_loads : String → Option (List (String × String))

-- ===== String helpers (Python str semantics over ASCII) =====

-- Python str.lower over ASCII letters.
def pyLower (s : String) : String := String.mk (s.data.map Char.toLower)

-- charsStart needle s: needle is a prefix of s (character lists).
def charsStart : List Char → List Char → Bool
  | [], _ => true
  | _ :: _, [] => false
  | a :: as, b :: bs => a == b && charsStart as bs

-- charsHave needle s: needle occurs as a contiguous run somewhere in s.
def charsHave (needle : List Char) : List Char → Bool
  | [] => needle.isEmpty
  | c :: rest => charsStart needle (c :: rest) || charsHave needle rest

-- Python `needle in haystack` substring test.
def strContains (hay needle : String) : Bool := charsHave needle.data hay.data

-- Python "\n".join-style join.
def strJoin (sep : String) : List String → String
  | [] => ""
  | [x] => x
  | x :: y :: xs => x ++ sep ++ strJoin sep (y :: xs)

-- Python \s over ASCII: space, tab, newline, carriage return, \v, \f.
def isPySpace (c : Char) : Bool :=
  c == ' ' || c == '\t' || c == '\n' || c == '\r' || c == '\x0b' || c == '\x0c'

-- Python \w over ASCII: letters, digits, underscore.
def isWordChar (c : Char) : Bool := c.isAlpha || c.isDigit || c == '_'

-- int() on a digit run (so "007" parses to 7).
def digitsToNat (ds : List Char) : Nat :=
  ds.foldl (fun acc c => acc * 10 + (c.toNat - 48)) 0

-- ===== Customer-id regex (router_agent.py line 40) =====
-- re.search(r"\b(?:customer\s+id|id)[^\d]*(\d+)\b", query_lower)

-- Match a literal string, returning the rest of the input on success.
def matchLit : List Char → List Char → Option (List Char)
  | [], s => some s
  | _, [] => none
  | l :: ls, c :: cs => if c == l then matchLit ls cs else none

-- First alternative of the group: "customer" \s+ "id".  The \s+ is greedy and
-- must be followed by the literal "id"; backtracking inside \s+ cannot help
-- because "id" starts with a non-space character.
def idCoreAlt1 (s : List Char) : Option (List Char) :=
  match matchLit "customer".data s with
  | none => none
  | some r =>
    let ws := r.takeWhile isPySpace
    if ws.isEmpty then none
    else matchLit "id".data (r.drop ws.length)

-- Attempt the whole pattern at the current position (the leading \b has
-- already been checked by the caller): (?:customer\s+id|id)[^\d]*(\d+)\b.
-- [^\d]* is greedy and cannot give digits back, and backtracking (\d+) never
-- restores the trailing \b, so both are deterministic.
def idCore (s : List Char) : Option Nat :=
  match (idCoreAlt1 s).orElse (fun _ => matchLit "id".data s) with
  | none => none
  | some r =>
    let nd := r.takeWhile (fun c => !c.isDigit)
    let r2 := r.drop nd.length
    let ds := r2.takeWhile Char.isDigit
    if ds.isEmpty then none
    else
      match r2.drop ds.length with
      | [] => some (digitsToNat ds)
      | c :: _ => if isWordChar c then none else some (digitsToNat ds)

-- re.search: scan start positions left to right; the \b holds at a position
-- iff the wordness of the previous character (non-word at the start) differs
-- from the wordness of the current one.
def searchCid : Bool → List Char → Option Nat
  | _, [] => none
  | prevWord, c :: rest =>
    if prevWord != isWordChar c then
      match idCore (c :: rest) with
      | some n => some n
      | none => searchCid (isWordChar c) rest
    else searchCid (isWordChar c) rest

def cidSearch (s : List Char) : Option Nat := searchCid false s

-- ===== Email regex (support_agent.py line 166) =====
-- re.search(r"[A-Za-z0-9._%+\-]+@[A-Za-z0-9.\-]+\.[A-Za-z]{2,}", query)

def isLocalChar (c : Char) : Bool :=
  c.isAlpha || c.isDigit || c == '.' || c == '_' || c == '%' || c == '+' || c == '-'

def isDomainChar (c : Char) : Bool :=
  c.isAlpha || c.isDigit || c == '.' || c == '-'

-- Backtracking of the greedy [A-Za-z0-9.\-]+ before \.[A-Za-z]{2,}: given the
-- maximal domain run, try dot positions from the right end down to index 1
-- (the + needs at least one character before the dot); at a successful dot
-- position the trailing [A-Za-z]{2,} is greedy and ends the pattern.
def dotSplit (run : List Char) : Nat → Option (List Char)
  | 0 => none
  | p + 1 =>
    let letters := (run.drop (p + 2)).takeWhile Char.isAlpha
    if run.getD (p + 1) '@' == '.' && decide (2 ≤ letters.length) then
      some (run.take (p + 1) ++ '.' :: letters)
    else dotSplit run p

-- Attempt the email pattern at the current position.  The local part is a
-- maximal run of local characters and must be directly followed by '@'
-- (backtracking cannot help since '@' is not a local character).
def matchEmailAt (s : List Char) : Option (List Char) :=
  let lcl := s.takeWhile isLocalChar
  if lcl.isEmpty then none
  else
    match s.drop lcl.length with
    | '@' :: r2 =>
      let run := r2.takeWhile isDomainChar
      (dotSplit run run.length).map (fun dom => lcl ++ '@' :: dom)
    | _ => none

-- re.search: leftmost match wins.
def emailSearch : List Char → Option (List Char)
  | [] => none
  | c :: rest =>
    match matchEmailAt (c :: rest) with
    | some m => some m
    | none => emailSearch rest

-- ===== Shared helper (agents/*.py _get_last_user_message) =====

-- Last HumanMessage content in the transcript (scan from the end).
def get_last_user_message : List Message → Option String
  | [] => none
  | m :: rest =>
    match get_last_user_message rest with
    | some q => some q
    | none => match m with
              | Message.human c => some c
              | Message.ai _ => none

-- router_agent.py line 35: query defaults to "" when no user message.
def router_query (state : SupportState) : String :=
  (get_last_user_message state.messages).getD ""

-- support_agent.py line 48: query falls back to state.get("input", "").
def support_query (state : SupportState) : String :=
  match get_last_user_message state.messages with
  | some q => q
  | none => state.input

-- ===== Router agent (agents/router_agent.py) =====

-- Rule cascade, lines 43-68 (first match wins).
def rule_intent (ql : String) : Option String :=
  if (strContains ql "active customers" && strContains ql "open tickets")
      || strContains ql "high priority tickets" then some "active_with_open_tickets"
  else if strContains ql "update my email" && strContains ql "ticket history" then
    some "update_and_history"
  else if strContains ql "cancel my subscription" && strContains ql "billing" then
    some "billing_issue"
  else if strContains ql "charged twice" || strContains ql "refund"
      || strContains ql "billing issue" then some "billing_issue"
  else if strContains ql "upgrade" || strContains ql "upgrading my account" then
    some "upgrade"
  else if strContains ql "customer id" && strContains ql "help with my account" then
    some "simple_lookup"
  else none

-- Urgency detection, lines 99-103.
def urgency_of (ql : String) : String :=
  if strContains ql "refund immediately" || strContains ql "charged twice"
      || strContains ql "urgent" || strContains ql "immediately" then "high"
  else "low"

-- Route decision, lines 105-109.
def route_of (intent : String) : String :=
  if intent == "simple_lookup" || intent == "upgrade" || intent == "billing_issue"
      || intent == "update_and_history" || intent == "active_with_open_tickets" then
    "data_then_support"
  else "support_only"

-- The f-string prompt of lines 72-90 (.strip() applied, literal braces
-- written as \x7b / \x7d).
def intent_prompt (query : String) : String :=
  "You are a router agent for a customer support system.\n\nUser message: \""
    ++ query
    ++ "\"\n\nChoose an intent from:\n  - \"simple_lookup\": get info for a single customer id\n  - \"upgrade\": upgrade an account\n  - \"billing_issue\": billing / charged twice / refund\n  - \"active_with_open_tickets\": report on active customers with open tickets or high priority tickets\n  - \"update_and_history\": update contact info and show ticket history\n  - \"general_support\": anything else\n\nRespond ONLY with valid JSON like:\n\x7b\n  \"intent\": \"...\",\n  \"urgency\": \"high\" or \"low\"\n\x7d"

-- Lines 92-97: the try/except around json.loads and parsed.get — a parse
-- failure (or a parsed object without a usable intent) gives
-- "general_support".
def parse_intent (env : Env) (raw : String) : String :=
  match env.json_loads raw with
  | none => "general_support"
  | some parsed => (parsed.lookup "intent").getD "general_support"

-- Lines 71-97: the LLM fallback.  llm.invoke (line 91) is OUTSIDE the
-- try/except, so a service error propagates; json.loads and .get (lines
-- 93-94) are inside it, so a parse failure yields "general_support".
def classify_intent (env : Env) (query ql : String) : Except Unit String :=
  match rule_intent ql with
  | some i => Except.ok i
  | none =>
    match env.llm_invoke (intent_prompt query) with
    | Except.error e => Except.error e
    | Except.ok raw => Except.ok (parse_intent env raw)

-- Python rendering of the Optional[int] customer_id in the f-string.
def showOptInt : Option Int → String
  | none => "None"
  | some n => toString n

-- Lines 40-41: customer id from the regex, else the previously known id.
def extract_customer_id (state : SupportState) (ql : String) : Option Int :=
  match cidSearch ql.data with
  | some n => some (Int.ofNat n)
  | none => state.customer_id

-- Lines 99-130: everything after the intent is fixed (urgency, route, audit
-- message, new state built by dict(state) + update).
def router_finish (state : SupportState) (intent : String) : SupportState :=
  let ql := pyLower (router_query state)
  let customer_id := extract_customer_id state ql
  let urgency := urgency_of ql
  let route := route_of intent
  { state with
    messages := state.messages ++ [Message.ai
      ("[RouterAgent] intent=" ++ intent ++ ", urgency=" ++ urgency
        ++ ", customer_id=" ++ showOptInt customer_id ++ ", route=" ++ route)],
    intent := some intent,
    urgency := some urgency,
    route := some route,
    customer_id := customer_id }

-- agents/router_agent.py router_agent (lines 20-130).
def router_agent (env : Env) (state : SupportState) : Except Unit SupportState :=
  match classify_intent env (router_query state) (pyLower (router_query state)) with
  | Except.error e => Except.error e
  | Except.ok intent => Except.ok (router_finish state intent)

-- ===== Customer data agent (agents/customer_data_agent.py) =====

structure FetchResult where
  customer : Option Customer := none
  tickets : List Ticket := []
  logs : List String := []
  calls : List DirCall := []

-- Lines 27-34: combined history fetch when a customer id is known.
def cda_fetch (env : Env) (cid : Option Int) : FetchResult :=
  match cid with
  | none => {}
  | some i =>
    let history := env.get_customer_history i
    { customer := history.customer,
      tickets := history.tickets,
      logs := ["Fetched history for customer_id=" ++ toString i
        ++ " (tickets=" ++ toString history.tickets.length ++ ")"],
      calls := [DirCall.getHistory i] }

structure RosterResult where
  customers : Option (List Customer) := none
  logs : List String := []
  calls : List DirCall := []

-- Lines 36-40: bounded roster of active customers for the report intent.
def cda_roster (env : Env) (intent : String) : RosterResult :=
  if intent == "active_with_open_tickets" then
    let cs := env.list_customers "active" 100
    { customers := some cs,
      logs := ["Listed active customers for report (count=" ++ toString cs.length ++ ")"],
      calls := [DirCall.listCustomers "active" 100] }
  else {}

-- agents/customer_data_agent.py customer_data_agent (lines 16-56).
def customer_data_agent (env : Env) (state : SupportState) :
    SupportState × List DirCall :=
  let intent := state.intent.getD "general_support"
  let f := cda_fetch env state.customer_id
  let g := cda_roster env intent
  let log_parts := f.logs ++ g.logs
  let summary :=
    if log_parts.isEmpty then "[CustomerDataAgent] No data fetch needed."
    else "[CustomerDataAgent] " ++ strJoin "; " log_parts
  ({ state with
      messages := state.messages ++ [Message.ai summary],
      customer_data := f.customer,
      tickets := some f.tickets,
      customers := g.customers },
   f.calls ++ g.calls)

-- ===== Support agent (agents/support_agent.py) =====

-- Lines 133-137: filter of a customer's history used by the report branch.
def high_open (env : Env) (c : Customer) : List Ticket :=
  (env.get_customer_history c.id).tickets.filter
    (fun t => t.status == "open" && t.priority == "high")

-- One report line of line 140-142.
def report_line (c : Customer) (n : Nat) : String :=
  "- Customer " ++ toString c.id ++ " (" ++ c.name ++ "): "
    ++ toString n ++ " high-priority ticket(s)"

-- Lines 130-142: the loop over the roster, producing report lines (roster
-- order) and one history fetch per roster customer.
def active_report (env : Env) : List Customer → List String × List DirCall
  | [] => ([], [])
  | c :: rest =>
    let hp := high_open env c
    let (ls, calls) := active_report env rest
    ((if hp.isEmpty then ls else report_line c hp.length :: ls),
     DirCall.getHistory c.id :: calls)

-- Each support branch decides a (support_log, response_text, calls) triple;
-- every Python branch then performs the same dict(state)+update, factored
-- below into support_agent.
def support_decide (env : Env) (state : SupportState) :
    String × String × List DirCall :=
  let intent := state.intent.getD "general_support"
  let urgency := state.urgency.getD "low"
  let customer_id := state.customer_id
  let customer := state.customer_data
  let customers := state.customers
  let query := support_query state
  if intent == "simple_lookup" then
    match customer with
    | none =>
      ("[SupportAgent] simple_lookup but customer not found.",
       "I could not find that customer. Please double check the ID.", [])
    | some c =>
      ("[SupportAgent] Handled simple_lookup.",
       "Customer " ++ toString c.id ++ ": " ++ c.name
         ++ "\nEmail: " ++ c.email ++ "\nPhone: " ++ c.phone
         ++ "\nStatus: " ++ c.status, [])
  else if intent == "upgrade" then
    match customer with
    | none =>
      ("[SupportAgent] upgrade intent but customer not found.",
       "I could not find your account. Please provide a valid customer ID.", [])
    | some c =>
      ("[SupportAgent] Handled upgrade flow.",
       "Hi " ++ c.name ++ ", I can help you upgrade your account. "
         ++ "I will use the email on file (" ++ c.email
         ++ ") to send a confirmation.", [])
  else if intent == "billing_issue" then
    match customer_id with
    | none =>
      ("[SupportAgent] Billing issue but no customer_id provided.",
       "I am sorry about the billing issue. Please provide your customer ID "
         ++ "so that I can create a ticket and investigate.", [])
    | some cid =>
      let priority := if urgency == "high" then "high" else "medium"
      let created := env.create_ticket cid query priority
      ("[SupportAgent] Created billing ticket #" ++ toString created.id
         ++ " for customer_id=" ++ toString cid ++ " with priority=" ++ priority ++ ".",
       "I am sorry about the billing issue. I have created a ticket #"
         ++ toString created.id ++ " with priority " ++ priority
         ++ ". Our billing team will review your charge and process any refund that is due.",
       [DirCall.createTicket cid query priority])
  else if intent == "active_with_open_tickets" && customers.isSome then
    let (lines, calls) := active_report env (customers.getD [])
    ("[SupportAgent] Generated report for active customers with high priority tickets.",
     (if lines.isEmpty then
        "There are no active customers with open high-priority tickets right now."
      else "High priority ticket status for active customers:\n" ++ strJoin "\n" lines),
     calls)
  else if intent == "update_and_history" && customer_id.isSome then
    let cid := customer_id.getD 0
    match emailSearch query.data with
    | some m =>
      let new_email := String.mk m
      let updated := env.update_customer cid new_email
      let ticket_list := (env.get_customer_history cid).tickets
      let ticket_lines := ticket_list.map (fun t => "- [" ++ t.status ++ "] " ++ t.issue)
      ("[SupportAgent] Updated email to " ++ new_email ++ " and summarized ticket history.",
       "Updated email to " ++ updated.email ++ " for customer " ++ updated.name
         ++ ".\n\nTicket history (" ++ toString ticket_list.length ++ " total):\n"
         ++ (if ticket_lines.isEmpty then "No tickets found."
             else strJoin "\n" ticket_lines),
       [DirCall.updateCustomer cid new_email, DirCall.getHistory cid])
    | none =>
      ("[SupportAgent] update_and_history but no valid email found.",
       "I could not find a valid email address to update.", [])
  else
    ("[SupportAgent] Fallback general_support.",
     "I have logged your issue and will route it to the appropriate team.", [])

-- agents/support_agent.py support_agent (lines 21-210): decide the branch,
-- then append the audit AIMessage and set the response.
def support_agent (env : Env) (state : SupportState) :
    SupportState × List DirCall :=
  let d := support_decide env state
  ({ state with
      messages := state.messages ++ [Message.ai d.1],
      response := some d.2.1 },
   d.2.2)

-- ===== Pipeline (workflows/a2a_graph.py build_a2a_graph) =====

-- router_next (lines 48-52): state.get("route") or "data_then_support".
def router_next (s : SupportState) : String :=
  let raw := s.route.getD ""
  if raw == "" then "data_then_support" else raw

-- The compiled graph: START -> RouterAgent -> (CustomerDataAgent ->)?
-- SupportAgent -> END.  Directory calls of the executed stages are collected
-- in execution order.
def run_pipeline (env : Env) (state : SupportState) :
    Except Unit (SupportState × List DirCall) :=
  match router_agent env state with
  | Except.error e => Except.error e
  | Except.ok s1 =>
    if router_next s1 == "support_only" then Except.ok (support_agent env s1)
    else
      Except.ok ((support_agent env (customer_data_agent env s1).1).1,
        (customer_data_agent env s1).2
          ++ (support_agent env (customer_data_agent env s1).1).2)

-- Spec-side description of the report: filter the roster (in order) to the
-- customers having at least one open high-priority ticket, then render one
-- line per kept customer.
def spec_report_lines (env : Env) (cs : List Customer) : List String :=
  (cs.filter (fun c => !(high_open env c).isEmpty)).map
    (fun c => report_line c (high_open env c).length)

-- Split a character list at newline characters (for inspecting the lines of
-- a produced response).
def splitNl : List Char → List (List Char)
  | [] => [[]]
  | c :: rest =>
    match splitNl rest with
    | [] => [[]]
    | l :: ls => if c == '\n' then [] :: l :: ls else (c :: l) :: ls

def respLines (r : String) : List String := (splitNl r.data).map String.mk

-- ===== Concrete fixtures (used by counterexamples and witnesses) =====

-- A small pure directory/classifier environment.
def exEnv : Env :=
  { get_customer_history := fun _ => { customer := none, tickets := [] },
    create_ticket := fun _ issue p => { id := 101, status := "open", priority := p, issue := issue },
    update_customer := fun cid e =>
      { id := cid, name := "Casey", email := e, phone := "555", status := "active" },
    list_customers := fun _ _ => [],
    llm_invoke := fun _ => Except.ok "not json",
    json_loads := fun _ => none }

-- Same environment, but the classifier service is unreachable.
def errEnv : Env := { exEnv with llm_invoke := fun _ => Except.error () }

-- Environment whose directory reports one open high-priority ticket for
-- every customer.
def env5 : Env :=
  { exEnv with get_customer_history := fun _ =>
      { customer := none,
        tickets := [{ id := 10, status := "open", priority := "high", issue := "broken" }] } }

def st0 : SupportState := { messages := [Message.human "hello there"] }

def st3 : SupportState :=
  { messages := [Message.human "please update my email and show my ticket history"],
    intent := some "update_and_history",
    customer_id := none }

def st3b : SupportState :=
  { messages := [Message.human "please update my email and show my ticket history"],
    intent := some "update_and_history",
    customer_id := some 3 }

def st4 : SupportState :=
  { messages := [Message.human
      "I am customer ID 2 and have been charged twice, please refund immediately!"],
    intent := some "billing_issue",
    urgency := some "high",
    customer_id := some 2 }

def alice : Customer :=
  { id := 1, name := "Alice", email := "a@x.com", phone := "1", status := "active" }

def st5 : SupportState :=
  { messages := [Message.human "show high priority tickets"],
    intent := some "active_with_open_tickets",
    customers := some [alice] }

def st6 : SupportState :=
  { messages := [Message.human
      "Please update my email, show my ticket history and the high priority tickets"] }

def st7 : SupportState :=
  { messages := [Message.human "I was charged twice, refund immediately!"] }

def st8 : SupportState := { messages := [Message.human "customer ID 42, help"] }

def st10 : SupportState :=
  { messages := [Message.human "there is a billing problem on my account"],
    intent := some "billing_issue",
    customer_id := some 999,
    customer_data := none }

-- ===== Helper lemmas =====

theorem app_data_ne (a b : String) (h : a.data ≠ []) : (a ++ b).data ≠ [] := by
  rw [String.data_append]
  intro hc
  exact h (List.append_eq_nil.mp hc).1

theorem support_agent_messages (env : Env) (s : SupportState) :
    (support_agent env s).1.messages
      = s.messages ++ [Message.ai (support_decide env s).1] := rfl

theorem support_agent_response (env : Env) (s : SupportState) :
    (support_agent env s).1.response = some (support_decide env s).2.1 := rfl

theorem support_agent_calls (env : Env) (s : SupportState) :
    (support_agent env s).2 = (support_decide env s).2.2 := rfl

-- Every branch of support_decide produces a response starting with a
-- non-empty literal.
theorem support_decide_response_ne (env : Env) (s : SupportState) :
    (support_decide env s).2.1.data ≠ [] := by
  simp only [support_decide]
  repeat' split
  all_goals dsimp only
  all_goals first
    | decide
    | ((repeat' apply app_data_ne); decide)

theorem router_finish_messages (s : SupportState) (i : String) :
    (router_finish s i).messages
      = s.messages ++ [Message.ai
          ("[RouterAgent] intent=" ++ i ++ ", urgency="
            ++ urgency_of (pyLower (router_query s))
            ++ ", customer_id="
            ++ showOptInt (extract_customer_id s (pyLower (router_query s)))
            ++ ", route=" ++ route_of i)] := rfl

theorem router_finish_route (s : SupportState) (i : String) :
    (router_finish s i).route = some (route_of i) := rfl

theorem router_finish_urgency (s : SupportState) (i : String) :
    (router_finish s i).urgency = some (urgency_of (pyLower (router_query s))) := rfl

theorem router_finish_cid (s : SupportState) (i : String) :
    (router_finish s i).customer_id
      = extract_customer_id s (pyLower (router_query s)) := rfl

theorem router_ok_elim {env : Env} {s s' : SupportState}
    (h : router_agent env s = Except.ok s') :
    ∃ i, classify_intent env (router_query s) (pyLower (router_query s))
          = Except.ok i ∧ s' = router_finish s i := by
  unfold router_agent at h
  split at h
  · exact absurd h (by simp)
  · next i heq => exact ⟨i, heq, (Except.ok.inj h).symm⟩

theorem route_of_cases (i : String) :
    route_of i = "data_then_support" ∨ route_of i = "support_only" := by
  unfold route_of
  split
  · exact Or.inl rfl
  · exact Or.inr rfl

theorem router_next_finish (s : SupportState) (i : String) :
    router_next (router_finish s i) = route_of i := by
  unfold router_next
  rw [router_finish_route]
  rcases route_of_cases i with h | h <;> rw [h] <;> decide

theorem cda_messages_dropLast (env : Env) (s : SupportState) :
    (customer_data_agent env s).1.messages.dropLast = s.messages ∧
      (customer_data_agent env s).1.messages.length = s.messages.length + 1 := by
  simp [customer_data_agent]

-- ===== Claims about the router =====

/-- C2 counterexample: with the rule cascade inconclusive and the classifier
service unreachable (llm.invoke raising), router_agent propagates the error
to its caller instead of falling back to general_support — llm.invoke sits
outside the try/except of router_agent.py lines 92-97. -/
theorem C2_counterexample : router_agent errEnv st0 = Except.error () := rfl

/-- C2 (amended): when none of the six rules match, any parse failure of the
classifier's output (json.loads error or missing structure) yields intent
general_support without propagating an error; however this recovery only
covers parsing — it presupposes the classifier service call itself returned
(a service error from llm.invoke does propagate). -/
theorem C2_theorem (env : Env) (s : SupportState) (raw : String)
    (hllm : env.llm_invoke (intent_prompt (router_query s)) = Except.ok raw) :
    (router_agent env s).isOk = true ∧
      (rule_intent (pyLower (router_query s)) = none →
        env.json_loads raw = none →
        router_agent env s = Except.ok (router_finish s "general_support")) := by
  cases hri : rule_intent (pyLower (router_query s)) with
  | some i =>
    have hc : classify_intent env (router_query s) (pyLower (router_query s))
        = Except.ok i := by
      unfold classify_intent
      rw [hri]
    constructor
    · unfold router_agent
      rw [hc]
      rfl
    · intro hc0 _
      exact Option.noConfusion hc0
  | none =>
    have hc : classify_intent env (router_query s) (pyLower (router_query s))
        = Except.ok (parse_intent env raw) := by
      unfold classify_intent
      rw [hri, hllm]
    constructor
    · unfold router_agent
      rw [hc]
      rfl
    · intro _ hj0
      have hp : parse_intent env raw = "general_support" := by
        unfold parse_intent
        rw [hj0]
      unfold router_agent
      rw [hc, hp]

/-- C2 witness: a concrete state whose text matches no rule, with a
classifier that answers non-JSON: the router succeeds and classifies
general_support. -/
theorem C2_witness :
    (router_agent exEnv st0).isOk = true ∧
      (rule_intent (pyLower (router_query st0)) = none →
        exEnv.json_loads "not json" = none →
        router_agent exEnv st0 = Except.ok (router_finish st0 "general_support")) :=
  C2_theorem exEnv st0 "not json" rfl

/-- C6: the rule cascade is evaluated in fixed priority order with first
match winning: any text containing "high priority tickets" (rule 1) together
with the rule-2 phrases "update my email" and "ticket history" classifies as
active_with_open_tickets, not update_and_history. -/
theorem C6_theorem (env : Env) (s : SupportState)
    (h1 : strContains (pyLower (router_query s)) "high priority tickets" = true)
    (_h2 : strContains (pyLower (router_query s)) "update my email" = true)
    (_h3 : strContains (pyLower (router_query s)) "ticket history" = true) :
    router_agent env s = Except.ok (router_finish s "active_with_open_tickets") ∧
      (router_finish s "active_with_open_tickets").intent
        = some "active_with_open_tickets" := by
  have hri : rule_intent (pyLower (router_query s))
      = some "active_with_open_tickets" := by
    unfold rule_intent
    rw [h1]
    simp
  refine ⟨?_, rfl⟩
  unfold router_agent classify_intent
  rw [hri]

/-- C6 witness: a concrete message containing all three phrases classifies
as active_with_open_tickets. -/
theorem C6_witness :
    router_agent exEnv st6 = Except.ok (router_finish st6 "active_with_open_tickets") ∧
      (router_finish st6 "active_with_open_tickets").intent
        = some "active_with_open_tickets" :=
  C6_theorem exEnv st6 (by decide) (by decide) (by decide)

/-- C7: urgency is high iff the lower-cased text contains one of the four
trigger phrases, and is recomputed from the raw text on every successful
router run, regardless of whether the rule cascade or the external
classifier set the intent. -/
theorem C7_theorem (env : Env) (s s1 : SupportState)
    (h : router_agent env s = Except.ok s1) :
    s1.urgency = some (if strContains (pyLower (router_query s)) "refund immediately"
          || strContains (pyLower (router_query s)) "charged twice"
          || strContains (pyLower (router_query s)) "urgent"
          || strContains (pyLower (router_query s)) "immediately"
        then "high" else "low") := by
  obtain ⟨i, _, hs1⟩ := router_ok_elim h
  rw [hs1, router_finish_urgency]
  rfl

/-- C7 witness: "I was charged twice, refund immediately!" yields urgency
high. -/
theorem C7_witness :
    ((router_agent exEnv st7).toOption.getD {}).urgency
        = some (if strContains (pyLower (router_query st7)) "refund immediately"
              || strContains (pyLower (router_query st7)) "charged twice"
              || strContains (pyLower (router_query st7)) "urgent"
              || strContains (pyLower (router_query st7)) "immediately"
            then "high" else "low") ∧
      (if strContains (pyLower (router_query st7)) "refund immediately"
          || strContains (pyLower (router_query st7)) "charged twice"
          || strContains (pyLower (router_query st7)) "urgent"
          || strContains (pyLower (router_query st7)) "immediately"
        then "high" else "low") = "high" :=
  ⟨C7_theorem exEnv st7 _ rfl, by decide⟩

/-- C8: customer-id extraction takes the first regex match's digit run:
"customer ID 42, help" resolves id 42, "my id 007 please" resolves id 7, and
when the pattern does not occur the previously supplied id (possibly absent)
is kept. -/
theorem C8_theorem (env : Env) (s s1 : SupportState)
    (h : router_agent env s = Except.ok s1) :
    (cidSearch (pyLower (router_query s)).data = none →
      s1.customer_id = s.customer_id) ∧
    (router_query s = "customer ID 42, help" → s1.customer_id = some 42) ∧
    (router_query s = "my id 007 please" → s1.customer_id = some 7) := by
  obtain ⟨i, _, hs1⟩ := router_ok_elim h
  subst hs1
  rw [router_finish_cid]
  refine ⟨?_, ?_, ?_⟩
  · intro hn
    unfold extract_customer_id
    rw [hn]
  · intro hq
    unfold extract_customer_id
    rw [hq, show cidSearch (pyLower "customer ID 42, help").data = some 42 from by decide]
    rfl
  · intro hq
    unfold extract_customer_id
    rw [hq, show cidSearch (pyLower "my id 007 please").data = some 7 from by decide]
    rfl

/-- C8 witness: the router run on "customer ID 42, help" resolves customer
id 42. -/
theorem C8_witness :
    (cidSearch (pyLower (router_query st8)).data = none →
      ((router_agent exEnv st8).toOption.getD {}).customer_id = st8.customer_id) ∧
    (router_query st8 = "customer ID 42, help" →
      ((router_agent exEnv st8).toOption.getD {}).customer_id = some 42) ∧
    (router_query st8 = "my id 007 please" →
      ((router_agent exEnv st8).toOption.getD {}).customer_id = some 7) :=
  C8_theorem exEnv st8 _ rfl

/-- C9: every stage is an immutable update: the output state's messages are
exactly the input messages (preserved in order) extended by one appended
audit entry — for the router (on success), the context fetcher, and the
support stage. -/
theorem C9_theorem :
    (∀ (env : Env) (s s1 : SupportState), router_agent env s = Except.ok s1 →
      s1.messages.dropLast = s.messages ∧
        s1.messages.length = s.messages.length + 1) ∧
    (∀ (env : Env) (s : SupportState),
      (customer_data_agent env s).1.messages.dropLast = s.messages ∧
        (customer_data_agent env s).1.messages.length = s.messages.length + 1) ∧
    (∀ (env : Env) (s : SupportState),
      (support_agent env s).1.messages.dropLast = s.messages ∧
        (support_agent env s).1.messages.length = s.messages.length + 1) := by
  refine ⟨?_, ?_, ?_⟩
  · intro env s s1 h
    obtain ⟨i, _, hs1⟩ := router_ok_elim h
    subst hs1
    rw [router_finish_messages]
    constructor <;> simp
  · exact cda_messages_dropLast
  · intro env s
    rw [support_agent_messages]
    constructor <;> simp

/-- C9 witness: the router stage on a concrete state appends exactly one
audit entry and preserves the user message. -/
theorem C9_witness :
    ((router_agent exEnv st0).toOption.getD {}).messages.dropLast = st0.messages ∧
      ((router_agent exEnv st0).toOption.getD {}).messages.length
        = st0.messages.length + 1 :=
  C9_theorem.1 exEnv st0 _ rfl

-- ===== Claim C1 (whole pipeline) =====

/-- C1 counterexample: on a support_only input ("hello there", one user
message) the pipeline succeeds with 3 messages — the Router and Support
stages both ran, so the appended count is 2, which is neither 1 nor 3 as the
claim states. -/
theorem C1_counterexample :
    (run_pipeline exEnv st0).isOk = true ∧
      ((run_pipeline exEnv st0).toOption.getD ({}, [])).1.messages.length = 3 ∧
      st0.messages.length = 1 ∧
      ¬ (3 = 1 + 1 ∨ 3 = 1 + 3) :=
  ⟨rfl, rfl, rfl, by decide⟩

/-- C1 (amended): for every initial state with at least one user-authored
message, whenever the pipeline completes it yields a non-empty response and
a messages sequence whose length is the input length plus the number of
stages actually executed — 2 on the support_only path (Router and Support
always run, only the Context Fetcher is skipped) or 3 otherwise. -/
theorem C1_theorem (env : Env) (s : SupportState) (out : SupportState × List DirCall)
    (_hmsg : (get_last_user_message s.messages).isSome = true)
    (h : run_pipeline env s = Except.ok out) :
    (out.1.response.getD "").data ≠ [] ∧
      (out.1.messages.length = s.messages.length + 2 ∨
        out.1.messages.length = s.messages.length + 3) := by
  unfold run_pipeline at h
  split at h
  · exact absurd h (by simp)
  · next s1 hr =>
    obtain ⟨i, _, hs1⟩ := router_ok_elim hr
    have hlen1 : s1.messages.length = s.messages.length + 1 := by
      rw [hs1, router_finish_messages]
      simp
    split at h
    · have hout : support_agent env s1 = out := Except.ok.inj h
      rw [← hout]
      constructor
      · rw [support_agent_response]
        simpa using support_decide_response_ne env s1
      · left
        rw [support_agent_messages]
        simp [hlen1]
    · have hout : ((support_agent env (customer_data_agent env s1).1).1,
          (customer_data_agent env s1).2
            ++ (support_agent env (customer_data_agent env s1).1).2) = out :=
        Except.ok.inj h
      rw [← hout]
      constructor
      · rw [support_agent_response]
        simpa using support_decide_response_ne env (customer_data_agent env s1).1
      · right
        rw [support_agent_messages]
        have h2 := (cda_messages_dropLast env s1).2
        simp [h2, hlen1]

/-- C1 witness: the concrete support_only run of the counterexample input
satisfies the amended statement (non-empty response, input length + 2). -/
theorem C1_witness :
    ((((run_pipeline exEnv st0).toOption.getD ({}, [])).1.response.getD "").data ≠ [] ∧
      (((run_pipeline exEnv st0).toOption.getD ({}, [])).1.messages.length
          = st0.messages.length + 2 ∨
        ((run_pipeline exEnv st0).toOption.getD ({}, [])).1.messages.length
          = st0.messages.length + 3)) :=
  C1_theorem exEnv st0 _ rfl rfl

-- ===== Claims about the support stage =====

theorem active_report_eq (env : Env) (cs : List Customer) :
    active_report env cs
      = (spec_report_lines env cs, cs.map (fun c => DirCall.getHistory c.id)) := by
  induction cs with
  | nil => rfl
  | cons c rest ih =>
    simp only [active_report, ih]
    by_cases hp : (high_open env c).isEmpty
    · simp [spec_report_lines, List.filter_cons, hp]
    · simp [spec_report_lines, List.filter_cons, hp]

/-- C3 counterexample: intent update_and_history with NO known customer id
and no email in the text — the branch guard requires a customer id, so the
run falls through to the general fallback response, not to the "no valid
email" explanation the claim requires. -/
theorem C3_counterexample :
    (support_agent exEnv st3).1.response
        = some "I have logged your issue and will route it to the appropriate team." ∧
      "I have logged your issue and will route it to the appropriate team."
        ≠ "I could not find a valid email address to update." :=
  ⟨rfl, by decide⟩

/-- C3 (amended): in the update_and_history branch, when a customer id is
known but the text contains no syntactically valid email address, the
response explains that no valid email was found and no update is performed;
when no customer id is known the branch is skipped entirely and the general
fallback response is produced (with no directory call). -/
theorem C3_theorem (env : Env) (s : SupportState)
    (hint : s.intent.getD "general_support" = "update_and_history") :
    (∀ cid : Int, s.customer_id = some cid →
      emailSearch (support_query s).data = none →
      (support_agent env s).1.response
          = some "I could not find a valid email address to update." ∧
        (support_agent env s).2 = []) ∧
    (s.customer_id = none →
      (support_agent env s).1.response
          = some "I have logged your issue and will route it to the appropriate team." ∧
        (support_agent env s).2 = []) := by
  constructor
  · intro cid hcid hmail
    rw [support_agent_response, support_agent_calls]
    simp only [support_decide, hint, hcid, hmail]
    exact ⟨rfl, rfl⟩
  · intro hcid
    rw [support_agent_response, support_agent_calls]
    simp only [support_decide, hint, hcid]
    exact ⟨rfl, rfl⟩

/-- C3 witness: known customer id 3 but a text without any email address:
the branch answers "no valid email" and performs no directory call. -/
theorem C3_witness :
    ((support_agent exEnv st3b).1.response
        = some "I could not find a valid email address to update." ∧
      (support_agent exEnv st3b).2 = []) :=
  (C3_theorem exEnv st3b rfl).1 3 rfl (by decide)

/-- C4: billing_issue branch — with a customer id, exactly one ticket is
created carrying the raw user text and priority high iff urgency is high
(else medium), and the response carries the created ticket's id and that
priority; without a customer id, the response asks for one and no directory
call happens. -/
theorem C4_theorem (env : Env) (s : SupportState)
    (hint : s.intent.getD "general_support" = "billing_issue") :
    (∀ cid : Int, s.customer_id = some cid →
      (support_agent env s).2
          = [DirCall.createTicket cid (support_query s)
              (if s.urgency.getD "low" == "high" then "high" else "medium")] ∧
        (support_agent env s).1.response
          = some ("I am sorry about the billing issue. I have created a ticket #"
              ++ toString (env.create_ticket cid (support_query s)
                  (if s.urgency.getD "low" == "high" then "high" else "medium")).id
              ++ " with priority "
              ++ (if s.urgency.getD "low" == "high" then "high" else "medium")
              ++ ". Our billing team will review your charge and process any refund that is due.")) ∧
    (s.customer_id = none →
      (support_agent env s).2 = [] ∧
        (support_agent env s).1.response
          = some ("I am sorry about the billing issue. Please provide your customer ID "
              ++ "so that I can create a ticket and investigate.")) := by
  constructor
  · intro cid hcid
    rw [support_agent_calls, support_agent_response]
    simp only [support_decide, hint, hcid]
    exact ⟨rfl, rfl⟩
  · intro hcid
    rw [support_agent_calls, support_agent_response]
    simp only [support_decide, hint, hcid]
    exact ⟨rfl, rfl⟩

/-- C4 witness: customer 2, urgency high — one ticket with priority high,
response shows the created ticket id. -/
theorem C4_witness :
    ((support_agent exEnv st4).2
        = [DirCall.createTicket 2 (support_query st4)
            (if st4.urgency.getD "low" == "high" then "high" else "medium")] ∧
      (support_agent exEnv st4).1.response
        = some ("I am sorry about the billing issue. I have created a ticket #"
            ++ toString (exEnv.create_ticket 2 (support_query st4)
                (if st4.urgency.getD "low" == "high" then "high" else "medium")).id
            ++ " with priority "
            ++ (if st4.urgency.getD "low" == "high" then "high" else "medium")
            ++ ". Our billing team will review your charge and process any refund that is due.")) :=
  (C4_theorem exEnv st4 rfl).1 2 rfl

/-- C5 counterexample: one roster customer (id 1, Alice) with one open
high-priority ticket — the produced report consists of a header line plus
the line "- Customer 1 (Alice): 1 high-priority ticket(s)"; no line of the
response has the claimed form "Customer {id} ({name}): {count}
high-priority ticket(s)" (the actual lines carry a "- " bullet prefix). -/
theorem C5_counterexample :
    respLines ((support_agent env5 st5).1.response.getD "")
        = ["High priority ticket status for active customers:",
           "- Customer 1 (Alice): 1 high-priority ticket(s)"] ∧
      "Customer 1 (Alice): 1 high-priority ticket(s)"
        ∉ respLines ((support_agent env5 st5).1.response.getD "") :=
  ⟨rfl, by decide⟩

/-- C5 (amended): with a non-null roster, one history fetch per roster
customer is performed (in roster order) and the report keeps, in roster
order, one line per customer having at least one ticket with status exactly
"open" and priority exactly "high", each line of the form
"- Customer {id} ({name}): {count} high-priority ticket(s)", joined under a
header line; if no line qualifies the response states none exist; with an
absent roster the branch falls through to the general fallback. -/
theorem C5_theorem (env : Env) (s : SupportState)
    (hint : s.intent.getD "general_support" = "active_with_open_tickets") :
    (∀ cs : List Customer, s.customers = some cs →
      (support_agent env s).2 = cs.map (fun c => DirCall.getHistory c.id) ∧
        (support_agent env s).1.response
          = some (if (spec_report_lines env cs).isEmpty then
                "There are no active customers with open high-priority tickets right now."
              else "High priority ticket status for active customers:\n"
                ++ strJoin "\n" (spec_report_lines env cs))) ∧
    (s.customers = none →
      (support_agent env s).2 = [] ∧
        (support_agent env s).1.response
          = some "I have logged your issue and will route it to the appropriate team.") := by
  constructor
  · intro cs hcs
    rw [support_agent_calls, support_agent_response]
    simp only [support_decide, hint, hcs, Option.isSome_some, Option.getD_some,
      active_report_eq]
    exact ⟨rfl, rfl⟩
  · intro hcs
    rw [support_agent_calls, support_agent_response]
    simp only [support_decide, hint, hcs]
    exact ⟨rfl, rfl⟩

/-- C5 witness: the roster [Alice] with one open high-priority ticket per
history — one fetch, and the report line for Alice under the header. -/
theorem C5_witness :
    ((support_agent env5 st5).2 = [alice].map (fun c => DirCall.getHistory c.id) ∧
      (support_agent env5 st5).1.response
        = some (if (spec_report_lines env5 [alice]).isEmpty then
            "There are no active customers with open high-priority tickets right now."
          else "High priority ticket status for active customers:\n"
            ++ strJoin "\n" (spec_report_lines env5 [alice]))) :=
  (C5_theorem env5 st5 rfl).1 [alice] rfl

/-- C10: in the billing_issue branch the only precondition consulted is the
presence of a customer id: even with an absent customer snapshot (id
matching no directory customer), exactly one ticket is created and the
confirmation response is returned. -/
theorem C10_theorem (env : Env) (s : SupportState) (cid : Int)
    (hint : s.intent.getD "general_support" = "billing_issue")
    (hcid : s.customer_id = some cid)
    (_hsnap : s.customer_data = none) :
    (support_agent env s).2
        = [DirCall.createTicket cid (support_query s)
            (if s.urgency.getD "low" == "high" then "high" else "medium")] ∧
      (support_agent env s).1.response
        = some ("I am sorry about the billing issue. I have created a ticket #"
            ++ toString (env.create_ticket cid (support_query s)
                (if s.urgency.getD "low" == "high" then "high" else "medium")).id
            ++ " with priority "
            ++ (if s.urgency.getD "low" == "high" then "high" else "medium")
            ++ ". Our billing team will review your charge and process any refund that is due.") := by
  rw [support_agent_calls, support_agent_response]
  simp only [support_decide, hint, hcid]
  exact ⟨rfl, rfl⟩

/-- C10 witness: customer id 999 unknown to the directory (snapshot absent):
the ticket is still created and confirmed. -/
theorem C10_witness :
    ((support_agent exEnv st10).2
        = [DirCall.createTicket 999 (support_query st10)
            (if st10.urgency.getD "low" == "high" then "high" else "medium")] ∧
      (support_agent exEnv st10).1.response
        = some ("I am sorry about the billing issue. I have created a ticket #"
            ++ toString (exEnv.create_ticket 999 (support_query st10)
                (if st10.urgency.getD "low" == "high" then "high" else "medium")).id
            ++ " with priority "
            ++ (if st10.urgency.getD "low" == "high" then "high" else "medium")
            ++ ". Our billing team will review your charge and process any refund that is due.")) :=
  C10_theorem exEnv st10 999 rfl rfl rfl
